import Mathlib

/-!
Verification of the smartmcp gateway core: name codec, upstream connection
management, catalog collection, the embedding index, and the downstream
request handlers, shallowly embedded from the Python source
(`smartmcp/upstream.py`, `smartmcp/embedding.py`, `smartmcp/server.py`).
Strings are modelled as lists of characters.
-/

namespace SmartMCP

/-- Tool and server names, modelled as lists of characters. -/
abbrev Name := List Char

/-- `SEPARATOR = "__"` from upstream.py. -/
def SEPARATOR : Name := ['_', '_']

/-- An upstream tool schema: name, description and input schema
(the latter two carried as opaque payloads). -/
structure Tool where
  name : Name
  description : String
  schema : String
deriving DecidableEq, Repr

/-- `prefix_tool_name(server_name, tool_name)` from upstream.py:
the concatenation `servername__toolname`. -/
def prefix_tool_name (server_name tool_name : Name) : Name :=
  server_name ++ SEPARATOR ++ tool_name

/-- `parse_prefixed_name(prefixed)` from upstream.py: Python
`prefixed.split("__", maxsplit=1)` splits at the leftmost occurrence of
`"__"`; when no occurrence exists the function raises, modelled as `none`. -/
def parse_prefixed_name : Name → Option (Name × Name)
  | [] => none
  | c :: rest =>
    if c = '_' ∧ rest.head? = some '_' then some ([], rest.tail)
    else (parse_prefixed_name rest).map (fun p => (c :: p.1, p.2))

/-- Whether a name contains the separator `"__"` as a substring. -/
def containsSep : Name → Bool
  | [] => false
  | c :: rest =>
    if c = '_' ∧ rest.head? = some '_' then true
    else containsSep rest

/-- The connection loop of `UpstreamManager.connect_all`: each configured
server is attempted in order; the attempt's outcome is an oracle boolean
(`true` = connect and initialize succeeded). Successes are recorded in the
session set, failures in the failure list, both in iteration order; no failure
aborts the loop. -/
def connectLoop : List (Name × Bool) → List Name × List Name
  | [] => ([], [])
  | (n, ok) :: rest =>
    let r := connectLoop rest
    if ok then (n :: r.1, r.2) else (r.1, n :: r.2)

/-- `UpstreamManager.connect_all` on a fresh manager (empty session dict):
runs the connection loop over the configured servers, then raises
`AllUpstreamsUnavailable` when the session set is empty, else returns the
failure list. -/
def connect_all (specs : List (Name × Bool)) : Except String (List Name) :=
  let r := connectLoop specs
  if r.1.isEmpty then Except.error "AllUpstreamsUnavailable"
  else Except.ok r.2

/-- One record produced by `UpstreamManager.collect_tools` for a tool fetched
from a session: the tool with its name prefixed by the origin, the
description and schema carried over. -/
def prefixRecord (server_name : Name) (t : Tool) : Tool :=
  { name := prefix_tool_name server_name t.name,
    description := t.description,
    schema := t.schema }

/-- `UpstreamManager.collect_tools`: iterates over the connected sessions in
order; each session's catalog fetch outcome is given as an `Except`. The
Python body has no exception handler, so a fetch error propagates out of the
whole call; on success each fetched tool contributes one
(origin, prefixed tool) record, in session order then server-reported order. -/
def collect_tools :
    List (Name × Except String (List Tool)) →
      Except String (List (Name × Tool))
  | [] => Except.ok []
  | (n, fetch) :: rest =>
    match fetch with
    | Except.error e => Except.error e
    | Except.ok tools =>
      match collect_tools rest with
      | Except.error e => Except.error e
      | Except.ok more =>
        Except.ok ((tools.map (fun t => (n, prefixRecord n t))) ++ more)

/-- An example tool used in concrete evaluations. -/
def readTool : Tool :=
  { name := ['r', 'e', 'a', 'd'], description := "read a file from disk",
    schema := "object" }

/-- A second example tool used in concrete evaluations. -/
def fetchTool : Tool :=
  { name := ['f', 'e', 't', 'c', 'h'], description := "fetch a URL",
    schema := "object" }

/-- The in-memory state of `EmbeddingIndex`: whether a similarity index has
been built (`_index is not None`) and the list of indexed tools (`_tools`). -/
structure EmbeddingIndex where
  built : Bool
  tools : List Tool
deriving Repr

/-- `EmbeddingIndex.__init__`: no index built yet, no tools. -/
def EmbeddingIndex.init : EmbeddingIndex :=
  { built := false, tools := [] }

/-- `EmbeddingIndex.build_index(tools)`: stores the tools and builds the
similarity index over them (the embedding itself is external). -/
def build_index (tools : List Tool) : EmbeddingIndex :=
  { built := true, tools := tools }

/-- Ranking order on scored tools: descending similarity score. -/
def scoreGE (a b : Tool × Int) : Prop := b.2 ≤ a.2

instance : DecidableRel scoreGE := fun a b => Int.decLe b.2 a.2

instance : IsTotal (Tool × Int) scoreGE := ⟨fun a b => le_total b.2 a.2⟩

instance : IsTrans (Tool × Int) scoreGE :=
  ⟨fun _ _ _ hab hbc => le_trans hbc hab⟩

/-- Modelled from the spec: `EmbeddingIndex.search` is absent from the source
snapshot (embedding.py ends after `build_index`); §4.3 of the spec describes
it. The external embedding and inner-product ranking of the query against the
catalog vectors is abstracted as a score oracle assigning each indexed tool a
similarity score; retrieval ranks the catalog by descending score. `k` is
clamped to at least 1 and at most the catalog size; the call fails with
`IndexNotBuilt` when no index has been built. -/
def search (idx : EmbeddingIndex) (score : Tool → Int) (k : Int) :
    Except String (List (Tool × Int)) :=
  if idx.built = false then Except.error "IndexNotBuilt"
  else
    let kc : Int := min (max k 1) (idx.tools.length : Int)
    let scored := idx.tools.map (fun t => (t, score t))
    Except.ok ((scored.insertionSort scoreGE).take kc.toNat)

/-- `SEARCH_TOOLS_NAME = "search_tools"` from server.py: the reserved
identifier of the built-in discovery tool. -/
def SEARCH_TOOLS_NAME : Name :=
  ['s', 'e', 'a', 'r', 'c', 'h', '_', 't', 'o', 'o', 'l', 's']

/-- `SEARCH_TOOLS_SCHEMA` from server.py: the built-in discovery tool's
descriptor. -/
def SEARCH_TOOLS_SCHEMA : Tool :=
  { name := SEARCH_TOOLS_NAME,
    description :=
      "Search for relevant tools across all connected MCP servers.",
    schema := "object" }

/-- `handle_list_tools` from server.py: the discovery tool's descriptor
followed by the current active tool set. -/
def handle_list_tools (active : List Tool) : List Tool :=
  SEARCH_TOOLS_SCHEMA :: active

/-- The caller-visible result of `handle_call_tool`: each constructor is one
return statement of the Python handler. -/
inductive Response where
  | missingQuery
  | searchError (msg : String)
  | summary (results : List (Tool × Int))
  | unknownTool (n : Name)
  | noUpstream (server_name : Name)
  | proxied (content : List String)
  | proxyError (msg : String)
deriving DecidableEq, Repr

/-- Whether a response is one of the textual dispatch-failure results
(the `Unknown tool:` and `No upstream server:` texts of server.py). -/
def Response.isErrorText : Response → Bool
  | .unknownTool _ => true
  | .noUpstream _ => true
  | _ => false

/-- The observable outcome of one `handle_call_tool` invocation: the active
tool set after the call, how many tool-list-changed notification sends were
attempted and how many were delivered, and the response returned. -/
structure HandlerOutcome where
  active : List Tool
  notifySends : Nat
  notifyDelivered : Nat
  response : Response
deriving Repr

/-- Lookup of `state.upstream.sessions.get(server_name)`: a connected session
is modelled as a function from the forwarded local tool name to the upstream
call's outcome. -/
def findSession (server_name : Name) :
    List (Name × (Name → Except String (List String))) →
      Option (Name → Except String (List String))
  | [] => none
  | (n, s) :: rest =>
    if n = server_name then some s else findSession server_name rest

/-- `handle_call_tool` from server.py. Inputs beyond the request itself:
`active` is the active tool set before the call, `sessions` the connected
upstream sessions, `searchResult` the outcome of `state.index.search` on the
query (the handler awaits it inside try/except), and `notifyOk` whether the
`send_tool_list_changed` notification would be delivered (its failure is
caught and logged).

Branches, in source order: the reserved discovery name with an empty query
returns the missing-query text; a search error returns the search-error text;
a search success replaces the active set wholesale with the returned tools,
attempts exactly one notification (a delivery failure is swallowed) and
returns the summary. Any other name is decoded with `parse_prefixed_name`
(failure: the `Unknown tool` text), its origin looked up among the sessions
(missing: the `No upstream server` text), and otherwise the call is forwarded
to that session with the decoded local name, relaying its content or error. -/
def handle_call_tool (active : List Tool)
    (sessions : List (Name × (Name → Except String (List String))))
    (n query : Name)
    (searchResult : Except String (List (Tool × Int)))
    (notifyOk : Bool) : HandlerOutcome :=
  if n = SEARCH_TOOLS_NAME then
    if query.isEmpty then
      { active := active, notifySends := 0, notifyDelivered := 0,
        response := Response.missingQuery }
    else
      match searchResult with
      | Except.error e =>
        { active := active, notifySends := 0, notifyDelivered := 0,
          response := Response.searchError e }
      | Except.ok results =>
        { active := results.map Prod.fst, notifySends := 1,
          notifyDelivered := if notifyOk then 1 else 0,
          response := Response.summary results }
  else
    match parse_prefixed_name n with
    | none =>
      { active := active, notifySends := 0, notifyDelivered := 0,
        response := Response.unknownTool n }
    | some (server_name, original_name) =>
      match findSession server_name sessions with
      | none =>
        { active := active, notifySends := 0, notifyDelivered := 0,
          response := Response.noUpstream server_name }
      | some s =>
        match s original_name with
        | Except.ok content =>
          { active := active, notifySends := 0, notifyDelivered := 0,
            response := Response.proxied content }
        | Except.error e =>
          { active := active, notifySends := 0, notifyDelivered := 0,
            response := Response.proxyError e }

theorem containsSep_cons_false {c : Char} {s : Name}
    (h : containsSep (c :: s) = false) :
    ¬ (c = '_' ∧ s.head? = some '_') ∧ containsSep s = false := by
  by_cases hc : c = '_' ∧ s.head? = some '_'
  · simp [containsSep, hc] at h
  · exact ⟨hc, by simpa [containsSep, hc] using h⟩

/-- Decoding is left inverse to encoding whenever the server name contains no
`"__"` and does not end in `'_'` (a trailing underscore would merge with the
separator and shift the leftmost split point). -/
theorem parse_prefix_append (server_name tool_name : Name)
    (hsep : containsSep server_name = false)
    (hlast : server_name.getLast? ≠ some '_') :
    parse_prefixed_name (prefix_tool_name server_name tool_name) =
      some (server_name, tool_name) := by
  induction server_name with
  | nil =>
    simp [prefix_tool_name, SEPARATOR, parse_prefixed_name]
  | cons c s ih =>
    obtain ⟨hhead, hsep'⟩ := containsSep_cons_false hsep
    have hcond : ¬ (c = '_' ∧ (s ++ SEPARATOR ++ tool_name).head? = some '_') := by
      rintro ⟨hc, hh⟩
      subst hc
      match s, hhead with
      | [], _ =>
        exact hlast (by simp)
      | d :: s', hhead =>
        have hd : d = '_' := by simpa [SEPARATOR] using hh
        exact hhead ⟨rfl, by simp [hd]⟩
    have hlast' : s.getLast? ≠ some '_' := by
      match s with
      | [] => simp
      | d :: s' =>
        simpa [List.getLast?_cons_cons] using hlast
    have hstep : prefix_tool_name (c :: s) tool_name =
        c :: (s ++ SEPARATOR ++ tool_name) := by
      simp [prefix_tool_name]
    rw [hstep]
    rw [parse_prefixed_name]
    rw [if_neg hcond]
    have := ih hsep' hlast'
    rw [prefix_tool_name] at this
    rw [this]
    rfl

theorem connectLoop_eq (specs : List (Name × Bool)) :
    connectLoop specs =
      ((specs.filter (fun p => p.2)).map Prod.fst,
       (specs.filter (fun p => !p.2)).map Prod.fst) := by
  induction specs with
  | nil => rfl
  | cons s rest ih =>
    obtain ⟨n, ok⟩ := s
    cases ok <;> simp [connectLoop, ih, List.filter]

/-- C1: searching a built index returns exactly `min (max k 1) n` results
(hence at most the clamped `k` and at most the catalog size `n`), sorted by
non-increasing similarity score, and searching before any build fails with
`IndexNotBuilt`. -/
theorem search_clamped_sorted (tools : List Tool) (score : Tool → Int)
    (k : Int) :
    search EmbeddingIndex.init score k = Except.error "IndexNotBuilt" ∧
    ∃ rs, search (build_index tools) score k = Except.ok rs ∧
      rs.length = (min (max k 1) (tools.length : Int)).toNat ∧
      rs.length ≤ tools.length ∧
      rs.length ≤ (max k 1).toNat ∧
      rs.Sorted scoreGE := by
  refine ⟨rfl, ?_⟩
  refine ⟨((tools.map (fun t => (t, score t))).insertionSort scoreGE).take
      (min (max k 1) (tools.length : Int)).toNat, rfl, ?_, ?_, ?_, ?_⟩
  · have hlen : ((tools.map (fun t => (t, score t))).insertionSort
        scoreGE).length = tools.length := by
      rw [List.length_insertionSort, List.length_map]
    rw [List.length_take, hlen]
    omega
  · have hlen : ((tools.map (fun t => (t, score t))).insertionSort
        scoreGE).length = tools.length := by
      rw [List.length_insertionSort, List.length_map]
    rw [List.length_take, hlen]
    omega
  · rw [List.length_take]
    have hle : min (max k 1) (tools.length : Int) ≤ max k 1 :=
      min_le_left _ _
    have := Int.toNat_le_toNat hle
    omega
  · exact (List.sorted_insertionSort scoreGE _).sublist (List.take_sublist _ _)

/-- C2: the claim fails on the code: with sessions `a` (fetch ok), `b`
(fetch raises) and `c` (fetch ok), `collect_tools` propagates the error
instead of completing with the records of `a` and `c`. -/
theorem collect_tools_abort_counterexample :
    collect_tools
        [(['a'], Except.ok [readTool]),
         (['b'], Except.error "boom"),
         (['c'], Except.ok [fetchTool])] =
      Except.error "boom" := rfl

/-- C2 (amended): a per-session catalog fetch failure is not caught: when the
sessions before the failing one all fetch successfully, `collect_tools`
propagates that first failure and returns no records at all. -/
theorem collect_tools_error_propagates
    (pre : List (Name × Except String (List Tool)))
    (n : Name) (e : String)
    (post : List (Name × Except String (List Tool)))
    (hpre : ∀ p ∈ pre, p.2.isOk = true) :
    collect_tools (pre ++ (n, Except.error e) :: post) = Except.error e := by
  induction pre with
  | nil => rfl
  | cons q rest ih =>
    obtain ⟨m, fetch⟩ := q
    have hq : (Except.isOk fetch) = true := hpre (m, fetch) (by simp)
    match fetch, hq with
    | Except.ok tools, _ =>
      have hrest : ∀ p ∈ rest, p.2.isOk = true := by
        intro p hp
        exact hpre p (by simp [hp])
      simp [collect_tools, ih hrest]

/-- Concrete instance of the error-propagation theorem. -/
theorem collect_tools_error_propagates_witness :
    collect_tools
        [(['x'], Except.ok [fetchTool]),
         (['y'], Except.error "gone"),
         (['z'], Except.ok [readTool])] =
      Except.error "gone" :=
  collect_tools_error_propagates [(['x'], Except.ok [fetchTool])]
    ['y'] "gone" [(['z'], Except.ok [readTool])] (by decide)

/-- C3: the round trip as stated by the spec fails: the origin `"a_"` contains
no `"__"` yet `parse_prefixed_name (prefix_tool_name "a_" "_b")` yields
`("a", "__b")`, not `("a_", "_b")`. -/
theorem round_trip_counterexample :
    containsSep ['a', '_'] = false ∧
    parse_prefixed_name (prefix_tool_name ['a', '_'] ['_', 'b']) =
      some (['a'], ['_', '_', 'b']) ∧
    parse_prefixed_name (prefix_tool_name ['a', '_'] ['_', 'b']) ≠
      some (['a', '_'], ['_', 'b']) := by
  refine ⟨by decide, by decide, by decide⟩

/-- C3 (amended): for every origin name that does not contain `"__"` and does
not end in `'_'`, and every local tool name, decoding the encoded identifier
yields back exactly the original pair. -/
theorem parse_prefixed_round_trip (server_name tool_name : Name)
    (hsep : containsSep server_name = false)
    (hlast : server_name.getLast? ≠ some '_') :
    parse_prefixed_name (prefix_tool_name server_name tool_name) =
      some (server_name, tool_name) :=
  parse_prefix_append server_name tool_name hsep hlast

/-- Concrete instance of the round-trip theorem. -/
theorem parse_prefixed_round_trip_witness :
    containsSep ['w', 'e', 'b'] = false ∧
    (['w', 'e', 'b'] : Name).getLast? ≠ some '_' ∧
    parse_prefixed_name (prefix_tool_name ['w', 'e', 'b'] ['f', 'e', 't', 'c', 'h']) =
      some (['w', 'e', 'b'], ['f', 'e', 't', 'c', 'h']) :=
  ⟨by decide, by decide,
    parse_prefixed_round_trip ['w', 'e', 'b'] ['f', 'e', 't', 'c', 'h']
      (by decide) (by decide)⟩

/-- C4: uniqueness as stated by the spec fails: the distinct pairs
`("a_", "_b")` and `("a", "__b")`, both with separator-free origins, encode to
the same identifier `"a____b"`. -/
theorem identifiers_nodup_counterexample :
    ([(['a', '_'], ['_', 'b']), (['a'], ['_', '_', 'b'])] :
        List (Name × Name)).Nodup ∧
    containsSep ['a', '_'] = false ∧ containsSep ['a'] = false ∧
    ¬ (([(['a', '_'], ['_', 'b']), (['a'], ['_', '_', 'b'])] :
        List (Name × Name)).map
          (fun p => prefix_tool_name p.1 p.2)).Nodup := by
  refine ⟨by decide, by decide, by decide, by decide⟩

/-- C4 (amended): for every catalog of pairwise-distinct (origin, local name)
pairs whose origins neither contain `"__"` nor end in `'_'`, the encoded
identifiers are pairwise distinct. -/
theorem identifiers_nodup (pairs : List (Name × Name))
    (hnd : pairs.Nodup)
    (hok : ∀ p ∈ pairs, containsSep p.1 = false ∧ p.1.getLast? ≠ some '_') :
    (pairs.map (fun p => prefix_tool_name p.1 p.2)).Nodup := by
  refine hnd.map_on ?_
  intro x hx y hy hxy
  have h1 := parse_prefix_append x.1 x.2 (hok x hx).1 (hok x hx).2
  have h2 := parse_prefix_append y.1 y.2 (hok y hy).1 (hok y hy).2
  rw [hxy, h2] at h1
  obtain ⟨hfst, hsnd⟩ := Prod.mk.injEq .. ▸ Option.some.inj h1
  exact Prod.ext hfst.symm hsnd.symm

/-- Concrete instance of the uniqueness theorem. -/
theorem identifiers_nodup_witness :
    ([(['a'], ['x']), (['a'], ['y']), (['b'], ['x'])] :
        List (Name × Name)).Nodup ∧
    (([(['a'], ['x']), (['a'], ['y']), (['b'], ['x'])] :
        List (Name × Name)).map
          (fun p => prefix_tool_name p.1 p.2)).Nodup :=
  ⟨by decide,
    identifiers_nodup [(['a'], ['x']), (['a'], ['y']), (['b'], ['x'])]
      (by decide) (by decide)⟩

/-- C5: `connect_all` attempts every configured server, records each failure
in the returned list without aborting the others, raises the fatal
all-upstreams-unavailable error exactly when the connected-session set is
empty (equivalently, when every attempt failed), and otherwise returns the
names of the failed servers in configuration order. -/
theorem connect_all_partial_failure (specs : List (Name × Bool)) :
    ((connectLoop specs).1 = [] ↔ ∀ p ∈ specs, p.2 = false) ∧
    (connect_all specs = Except.error "AllUpstreamsUnavailable" ↔
      (connectLoop specs).1 = []) ∧
    ((connectLoop specs).1 ≠ [] →
      connect_all specs =
        Except.ok ((specs.filter (fun p => !p.2)).map Prod.fst)) := by
  refine ⟨?_, ?_, ?_⟩
  · rw [connectLoop_eq]
    simp [List.filter_eq_nil_iff]
  · rw [connect_all]
    by_cases h : (connectLoop specs).1 = []
    · simp [h]
    · simp [h, List.isEmpty_iff]
  · intro h
    have hne : (connectLoop specs).1.isEmpty = false := by
      simpa [List.isEmpty_iff] using h
    have hok : connect_all specs = Except.ok (connectLoop specs).2 := by
      rw [connect_all]
      simp [hne]
    rw [hok, connectLoop_eq]

/-- Concrete instance of the connect theorem: three origins, one failing. -/
theorem connect_all_partial_failure_witness :
    connect_all [(['a'], false), (['b'], true), (['c'], true)] =
      Except.ok [['a']] := by
  have h := (connect_all_partial_failure
      [(['a'], false), (['b'], true), (['c'], true)]).2.2 (by decide)
  simpa using h

/-- C6: a successful discovery call replaces the active tool set wholesale
with exactly the tools returned by the search, attempts exactly one
tool-list-changed notification, and returns the summary response whatever
the notification delivery outcome `notifyOk` is. -/
theorem discovery_replaces_wholesale (active : List Tool)
    (sessions : List (Name × (Name → Except String (List String))))
    (query : Name) (results : List (Tool × Int)) (notifyOk : Bool)
    (hq : query.isEmpty = false) :
    handle_call_tool active sessions SEARCH_TOOLS_NAME query
        (Except.ok results) notifyOk =
      { active := results.map Prod.fst, notifySends := 1,
        notifyDelivered := if notifyOk then 1 else 0,
        response := Response.summary results } := by
  simp [handle_call_tool, hq]

/-- Concrete instance of the wholesale-replacement theorem, with a failing
notification delivery. -/
theorem discovery_replaces_wholesale_witness :
    (['q'] : Name).isEmpty = false ∧
    handle_call_tool [readTool]
        ([] : List (Name × (Name → Except String (List String))))
        SEARCH_TOOLS_NAME ['q'] (Except.ok [(fetchTool, 9)]) false =
      { active := [fetchTool], notifySends := 1, notifyDelivered := 0,
        response := Response.summary [(fetchTool, 9)] } :=
  ⟨rfl, discovery_replaces_wholesale [readTool] [] ['q'] [(fetchTool, 9)]
    false rfl⟩

/-- C7: for every active tool set, listing returns the built-in discovery
tool's descriptor first, followed by the active set in order. -/
theorem list_tools_discovery_first (active : List Tool) :
    (handle_list_tools active).head? = some SEARCH_TOOLS_SCHEMA ∧
    (handle_list_tools active).tail = active :=
  ⟨rfl, rfl⟩

/-- C8: when the identifier decodes and its origin has a connected session,
dispatch forwards the decoded local name to that session and relays its
outcome; the result does not depend on the active tool set, so membership in
it is never consulted. -/
theorem dispatch_ignores_active_set (active other : List Tool)
    (sessions : List (Name × (Name → Except String (List String))))
    (n query server_name original_name : Name)
    (s : Name → Except String (List String))
    (searchResult : Except String (List (Tool × Int))) (notifyOk : Bool)
    (hn : n ≠ SEARCH_TOOLS_NAME)
    (hparse : parse_prefixed_name n = some (server_name, original_name))
    (hs : findSession server_name sessions = some s) :
    handle_call_tool active sessions n query searchResult notifyOk =
      { active := active, notifySends := 0, notifyDelivered := 0,
        response :=
          match s original_name with
          | Except.ok content => Response.proxied content
          | Except.error e => Response.proxyError e } ∧
    (handle_call_tool active sessions n query searchResult notifyOk).response =
      (handle_call_tool other sessions n query searchResult notifyOk).response := by
  have key : ∀ a : List Tool,
      handle_call_tool a sessions n query searchResult notifyOk =
        { active := a, notifySends := 0, notifyDelivered := 0,
          response :=
            match s original_name with
            | Except.ok content => Response.proxied content
            | Except.error e => Response.proxyError e } := by
    intro a
    simp only [handle_call_tool, if_neg hn, hparse, hs]
    cases s original_name <;> rfl
  exact ⟨key active, by rw [key active, key other]⟩

/-- Concrete instance of the dispatch theorem: the proxied tool is not in the
active set, yet the call is forwarded. -/
theorem dispatch_ignores_active_set_witness :
    handle_call_tool [readTool]
        [(['a'], fun _ => Except.ok ["out"])]
        ['a', '_', '_', 'r'] [] (Except.ok []) true =
      { active := [readTool], notifySends := 0, notifyDelivered := 0,
        response := Response.proxied ["out"] } := by
  have h := (dispatch_ignores_active_set [readTool] []
      [(['a'], fun _ => Except.ok ["out"])] ['a', '_', '_', 'r'] []
      ['a'] ['r'] (fun _ => Except.ok ["out"]) (Except.ok []) true
      (by decide) (by decide) rfl).1
  simpa using h

/-- C9: when a non-reserved identifier cannot be decoded, or decodes to an
origin with no connected session, the handler returns a textual
dispatch-failure result, leaves the active set unchanged and sends no
notification — it never raises. -/
theorem dispatch_unknown_textual (active : List Tool)
    (sessions : List (Name × (Name → Except String (List String))))
    (n query : Name) (searchResult : Except String (List (Tool × Int)))
    (notifyOk : Bool)
    (hn : n ≠ SEARCH_TOOLS_NAME)
    (hfail : parse_prefixed_name n = none ∨
      ∃ p, parse_prefixed_name n = some p ∧ findSession p.1 sessions = none) :
    ∃ r, handle_call_tool active sessions n query searchResult notifyOk =
        { active := active, notifySends := 0, notifyDelivered := 0,
          response := r } ∧
      r.isErrorText = true := by
  rcases hfail with h | ⟨⟨sv, orig⟩, hp, hs⟩
  · refine ⟨Response.unknownTool n, ?_, rfl⟩
    simp only [handle_call_tool, if_neg hn, h]
  · refine ⟨Response.noUpstream sv, ?_, rfl⟩
    simp only [handle_call_tool, if_neg hn, hp, hs]

/-- Concrete instance of the unknown-tool theorem: an identifier with no
separator. -/
theorem dispatch_unknown_textual_witness :
    (['x'] : Name) ≠ SEARCH_TOOLS_NAME ∧
    ∃ r, handle_call_tool []
        ([] : List (Name × (Name → Except String (List String))))
        ['x'] [] (Except.ok []) true =
        { active := [], notifySends := 0, notifyDelivered := 0,
          response := r } ∧
      r.isErrorText = true :=
  ⟨by decide,
    dispatch_unknown_textual [] [] ['x'] [] (Except.ok []) true
      (by decide) (Or.inl rfl)⟩

/-- C10: when the index search raises, the handler returns the search-error
text, the active tool set keeps its previous value and no notification is
attempted. -/
theorem search_error_leaves_state (active : List Tool)
    (sessions : List (Name × (Name → Except String (List String))))
    (query : Name) (e : String) (notifyOk : Bool)
    (hq : query.isEmpty = false) :
    handle_call_tool active sessions SEARCH_TOOLS_NAME query
        (Except.error e) notifyOk =
      { active := active, notifySends := 0, notifyDelivered := 0,
        response := Response.searchError e } := by
  simp [handle_call_tool, hq]

/-- Concrete instance of the search-error theorem. -/
theorem search_error_leaves_state_witness :
    (['q'] : Name).isEmpty = false ∧
    handle_call_tool [readTool]
        ([] : List (Name × (Name → Except String (List String))))
        SEARCH_TOOLS_NAME ['q'] (Except.error "down") true =
      { active := [readTool], notifySends := 0, notifyDelivered := 0,
        response := Response.searchError "down" } :=
  ⟨rfl, search_error_leaves_state [readTool] [] ['q'] "down" true rfl⟩

end SmartMCP
